import Mathlib

/-!
Verification of the rust-igd UPnP IGD client against its specification.

The Rust sources are shallowly embedded: pure protocol logic (the SSDP
reply parser, the streaming control-URL extractor, the SOAP request
builder, the error translators) becomes executable Lean functions, and
the network is an explicit oracle parameter.  Machine integers are
modelled as `Nat` (no arithmetic here overflows), Rust `Result` as
`Except`, strings as `String`/`List Char`.
-/

namespace Igd

/-! ## Core data model (src/lib.rs, src/gateway.rs) -/

/-- `PortMappingProtocol` from src/lib.rs. -/
inductive PortMappingProtocol
  | TCP
  | UDP
deriving DecidableEq

/-- An IPv4 socket address: four octets plus a port (std::net::SocketAddrV4). -/
structure SocketAddrV4 where
  ip : Nat × Nat × Nat × Nat
  port : Nat
deriving DecidableEq

/-- `Gateway` from src/gateway.rs: address plus control URL. -/
structure Gateway where
  addr : SocketAddrV4
  control_url : String
deriving DecidableEq

/-! ## Error taxonomy (src/errors.rs)

Foreign error payloads (hyper, io, xml, utf8 errors) carry no structure the
claims depend on; they are embedded as strings, except `io::Error` which
keeps its kind because the timeout conversion constructs a `TimedOut` kind. -/

/-- The subset of `std::io::ErrorKind` this crate constructs or inspects. -/
inductive IoErrorKind
  | TimedOut
  | Other (tag : String)
deriving DecidableEq

/-- `SearchError` from src/errors.rs. -/
inductive SearchError
  | HttpError (msg : String)
  | InvalidUri (msg : String)
  | InvalidResponse
  | IoError (kind : IoErrorKind) (msg : String)
  | Utf8Error (msg : String)
  | XmlError (msg : String)
deriving DecidableEq

/-- `RequestError` from src/errors.rs. -/
inductive RequestError
  | HttpError (msg : String)
  | IoError (msg : String)
  | InvalidResponse (body : String)
  | ErrorCode (code : Nat) (description : String)
  | TimerError (msg : String)
  | Utf8Error (msg : String)
  | InvalidUri (msg : String)
deriving DecidableEq

/-- `GetExternalIpError` from src/errors.rs. -/
inductive GetExternalIpError
  | ActionNotAuthorized
  | RequestError (e : RequestError)
deriving DecidableEq

/-- `RemovePortError` from src/errors.rs. -/
inductive RemovePortError
  | ActionNotAuthorized
  | NoSuchPortMapping
  | RequestError (e : RequestError)
deriving DecidableEq

/-- `AddAnyPortError` from src/errors.rs. -/
inductive AddAnyPortError
  | ActionNotAuthorized
  | InternalPortZeroInvalid
  | NoPortsAvailable
  | ExternalPortInUse
  | OnlyPermanentLeasesSupported
  | DescriptionTooLong
  | RequestError (e : RequestError)
deriving DecidableEq

/-- `AddPortError` from src/errors.rs. -/
inductive AddPortError
  | ActionNotAuthorized
  | InternalPortZeroInvalid
  | ExternalPortZeroInvalid
  | PortInUse
  | SamePortValuesRequired
  | OnlyPermanentLeasesSupported
  | DescriptionTooLong
  | RequestError (e : RequestError)
deriving DecidableEq

/-! ## SSDP discovery datagram (src/search.rs) -/

/-- `SEARCH_REQUEST` from src/search.rs.  The Rust literal is written with
`\r` at each line end followed by a literal newline; the content is the
concatenation of these CRLF-terminated lines. -/
def SEARCH_REQUEST : String :=
  "M-SEARCH * HTTP/1.1\r\n" ++
  "Host:239.255.255.250:1900\r\n" ++
  "ST:urn:schemas-upnp-org:device:InternetGatewayDevice:1\r\n" ++
  "Man:\"ssdp:discover\"\r\n" ++
  "MX:3\r\n\r\n"

/-- The multicast destination `"239.255.255.250:1900"` that
`search_gateway_from_timeout` passes to `send_dgram`. -/
def SEARCH_TARGET : SocketAddrV4 := ⟨(239, 255, 255, 250), 1900⟩

/-- The (payload, destination) pair of the single discovery datagram sent by
`search_gateway_from_timeout` in src/search.rs. -/
def discoveryDatagram : String × SocketAddrV4 := (SEARCH_REQUEST, SEARCH_TARGET)

/-! ## Timeout error conversion (src/errors.rs, src/search.rs)

`search_gateway_from_timeout` ends with `.timeout(timeout).from_err()`: every
error of the inner future chain is wrapped in
`tokio::timer::timeout::Error<SearchError>` and then converted by the
`From` impl at the bottom of src/errors.rs. -/

/-- `tokio::timer::timeout::Error<SearchError>`: either the inner future
failed, the deadline elapsed, or the timer itself failed. -/
inductive TimeoutKind
  | inner (e : SearchError)
  | elapsed
  | timer (msg : String)
deriving DecidableEq

/-- `impl From<tokio::timer::timeout::Error<SearchError>> for SearchError`
(src/errors.rs): the argument is discarded and every case becomes the same
`TimedOut` io error. -/
def searchErrorFromTimeout : TimeoutKind → SearchError :=
  fun _e => SearchError.IoError IoErrorKind.TimedOut "search timed out"

/-- The error behaviour of the `search_gateway_from_timeout` pipeline
(src/search.rs): the inner chain produces `inner`, the `.timeout(t)`
combinator wraps an elapsed deadline or an inner error into
`TimeoutKind`, and `.from_err()` applies `searchErrorFromTimeout`. -/
def discoveryOutcome (inner : Except SearchError Gateway) (elapsed : Bool) :
    Except SearchError Gateway :=
  if elapsed then Except.error (searchErrorFromTimeout TimeoutKind.elapsed)
  else
    match inner with
    | Except.ok g => Except.ok g
    | Except.error e => Except.error (searchErrorFromTimeout (TimeoutKind.inner e))

/-! ## Error translator (spec §4.4)

The async gateway engine lives in the crate's `tokio` submodule, whose
`gateway.rs` is declared by src/src/tokio/mod.rs but is not part of the
provided sources, so the translator is modelled from the specification. -/

/-- Modelled from the spec: the §4.4 error translation for `get_external_ip`
(the source `tokio/gateway.rs` is declared but not provided).  Codes 401 and
606 mean "action not authorized" for every operation; all other codes are
outside this operation's known set and fall back to the generic
code/description pair wrapped in `RequestError`. -/
def translateGetExternalIp (code : Nat) (description : String) : GetExternalIpError :=
  if code = 401 ∨ code = 606 then GetExternalIpError.ActionNotAuthorized
  else GetExternalIpError.RequestError (RequestError.ErrorCode code description)

/-- Modelled from the spec: the §4.4 error translation for `remove_port`
(the source `tokio/gateway.rs` is declared but not provided).  401/606 map to
`ActionNotAuthorized`, 714 to `NoSuchPortMapping`, everything else to the
generic code/description pair. -/
def translateRemovePort (code : Nat) (description : String) : RemovePortError :=
  if code = 401 ∨ code = 606 then RemovePortError.ActionNotAuthorized
  else if code = 714 then RemovePortError.NoSuchPortMapping
  else RemovePortError.RequestError (RequestError.ErrorCode code description)

/-- Modelled from the spec: the §4.4 error translation for `add_port`
(the source `tokio/gateway.rs` is declared but not provided).  401/606 map to
`ActionNotAuthorized`, 716 to `InternalPortZeroInvalid`, 717 to `PortInUse`,
724 to `SamePortValuesRequired`, 725 to `OnlyPermanentLeasesSupported`,
728 to `DescriptionTooLong`, everything else to the generic pair. -/
def translateAddPort (code : Nat) (description : String) : AddPortError :=
  if code = 401 ∨ code = 606 then AddPortError.ActionNotAuthorized
  else if code = 716 then AddPortError.InternalPortZeroInvalid
  else if code = 717 then AddPortError.PortInUse
  else if code = 724 then AddPortError.SamePortValuesRequired
  else if code = 725 then AddPortError.OnlyPermanentLeasesSupported
  else if code = 728 then AddPortError.DescriptionTooLong
  else AddPortError.RequestError (RequestError.ErrorCode code description)

/-- Modelled from the spec: the §4.4 error translation for `add_any_port`
(the source `tokio/gateway.rs` is declared but not provided).  401/606 map to
`ActionNotAuthorized`, 715 to `NoPortsAvailable`, 716 to
`InternalPortZeroInvalid`, 725 to `OnlyPermanentLeasesSupported`, 728 to
`DescriptionTooLong`, everything else to the generic pair. -/
def translateAddAnyPort (code : Nat) (description : String) : AddAnyPortError :=
  if code = 401 ∨ code = 606 then AddAnyPortError.ActionNotAuthorized
  else if code = 715 then AddAnyPortError.NoPortsAvailable
  else if code = 716 then AddAnyPortError.InternalPortZeroInvalid
  else if code = 725 then AddAnyPortError.OnlyPermanentLeasesSupported
  else if code = 728 then AddAnyPortError.DescriptionTooLong
  else AddAnyPortError.RequestError (RequestError.ErrorCode code description)

/-- The codes `translateGetExternalIp` recognises. -/
def getExternalIpKnownCodes : List Nat := [401, 606]

/-- The codes `translateRemovePort` recognises. -/
def removePortKnownCodes : List Nat := [401, 606, 714]

/-- The codes `translateAddPort` recognises. -/
def addPortKnownCodes : List Nat := [401, 606, 716, 717, 724, 725, 728]

/-- The codes `translateAddAnyPort` recognises. -/
def addAnyPortKnownCodes : List Nat := [401, 606, 715, 716, 725, 728]

/-! ## Control URL extractor (src/search.rs, `parse_control_url`)

The xml-rs `EventReader` iterator yields `Result<XmlEvent, XmlError>`
items; the function folds over them.  Only the event payloads the code
inspects are modelled: a start element's name, character data, and the
fact of an end element (the code ignores the end element's own name and
pops the path stack instead).  Everything else (`StartDocument`, CData,
comments, ...) falls into `other`.  The path stack `chain` is kept with
its TOP at the HEAD of the list, so "the last `k` entries" of the Rust
`Vec` are `chain.take k` here, listed innermost first. -/

/-- One item of the xml-rs event iterator. -/
inductive XmlItem
  | start (name : String)
  | endElement
  | chars (text : String)
  | other
  | err (msg : String)
deriving DecidableEq

/-- The scratch `Service` record local to `parse_control_url`. -/
structure Service where
  service_type : String
  control_url : String
deriving DecidableEq

/-- The extractor's mutable state: the path stack (top at head) and the
scratch service record. -/
structure ExtractorState where
  chain : List String
  service : Service
deriving DecidableEq

/-- Initial state: empty stack, empty scratch strings. -/
def initExtractor : ExtractorState := ⟨[], ⟨"", ""⟩⟩

/-- `StartElement` arm of `parse_control_url`: push the name; if the last
three stack entries (innermost first) are `service, serviceList, device`,
clear the scratch record. -/
def stepStart (st : ExtractorState) (name : String) : ExtractorState :=
  let chain := name :: st.chain
  if chain.take 3 = ["service", "serviceList", "device"] then
    { chain := chain, service := ⟨"", ""⟩ }
  else
    { st with chain := chain }

/-- `Characters` arm of `parse_control_url`: when the last four stack
entries are `serviceType/controlURL, service, serviceList, device`, append
the text to the matching scratch field.  The two tests are sequential in
the source (and mutually exclusive). -/
def stepChars (st : ExtractorState) (text : String) : ExtractorState :=
  let st1 :=
    if st.chain.take 4 = ["serviceType", "service", "serviceList", "device"] then
      { st with service := { st.service with service_type := st.service.service_type ++ text } }
    else st
  if st1.chain.take 4 = ["controlURL", "service", "serviceList", "device"] then
    { st1 with service := { st1.service with control_url := st1.service.control_url ++ text } }
  else st1

/-- `EndElement` arm of `parse_control_url`: pop the stack; if the popped
tag was `service`, the remaining last two entries are
`serviceList, device`, the accumulated serviceType is one of the two WAN
connection URNs and the accumulated controlURL is non-empty, report the
controlURL (the source returns it immediately). -/
def stepEnd (st : ExtractorState) : ExtractorState × Option String :=
  match st.chain with
  | [] => ({ st with chain := [] }, none)
  | top :: rest =>
    if top = "service" ∧ rest.take 2 = ["serviceList", "device"]
        ∧ ("urn:schemas-upnp-org:service:WANIPConnection:1" = st.service.service_type
           ∨ "urn:schemas-upnp-org:service:WANPPPConnection:1" = st.service.service_type)
        ∧ st.service.control_url.length ≠ 0 then
      ({ st with chain := rest }, some st.service.control_url)
    else
      ({ st with chain := rest }, none)

/-- `parse_control_url` from src/search.rs: fold over the event stream,
return the first reported controlURL, propagate the first XML error
(`try!`), and fail with `InvalidResponse` when the stream ends. -/
def parse_control_url : List XmlItem → ExtractorState → Except SearchError String
  | [], _ => Except.error SearchError.InvalidResponse
  | XmlItem.err m :: _, _ => Except.error (SearchError.XmlError m)
  | XmlItem.start n :: rest, st => parse_control_url rest (stepStart st n)
  | XmlItem.endElement :: rest, st =>
    match stepEnd st with
    | (_, some url) => Except.ok url
    | (st2, none) => parse_control_url rest st2
  | XmlItem.chars t :: rest, st => parse_control_url rest (stepChars st t)
  | XmlItem.other :: rest, st => parse_control_url rest st

/-- Specification-side view of the extractor (spec §4.2): the list, in
document order, of the controlURLs of every service element that closes
while the path-stack suffix matches `device/serviceList/service`, whose
accumulated serviceType is one of the two WAN connection URNs and whose
accumulated controlURL is non-empty — with no short-circuit.  Collection
stops at the first XML error, where the source stops reading. -/
def matchedControlUrls : List XmlItem → ExtractorState → List String
  | [], _ => []
  | XmlItem.err _ :: _, _ => []
  | XmlItem.start n :: rest, st => matchedControlUrls rest (stepStart st n)
  | XmlItem.endElement :: rest, st =>
    match stepEnd st with
    | (st2, some url) => url :: matchedControlUrls rest st2
    | (st2, none) => matchedControlUrls rest st2
  | XmlItem.chars t :: rest, st => matchedControlUrls rest (stepChars st t)
  | XmlItem.other :: rest, st => matchedControlUrls rest st

/-- The first XML error the extractor would reach, or `none` if a matching
service closes first or the stream ends cleanly. -/
def firstStreamError : List XmlItem → ExtractorState → Option String
  | [], _ => none
  | XmlItem.err m :: _, _ => some m
  | XmlItem.start n :: rest, st => firstStreamError rest (stepStart st n)
  | XmlItem.endElement :: rest, st =>
    match stepEnd st with
    | (_, some _) => none
    | (st2, none) => firstStreamError rest st2
  | XmlItem.chars t :: rest, st => firstStreamError rest (stepChars st t)
  | XmlItem.other :: rest, st => firstStreamError rest st

/-- Characterisation of the extractor: it returns the head of the
document-order list of matching controlURLs, and otherwise the first XML
error or `InvalidResponse` at end of stream. -/
theorem parse_control_url_characterisation (evs : List XmlItem) (st : ExtractorState) :
    parse_control_url evs st =
      match matchedControlUrls evs st with
      | url :: _ => Except.ok url
      | [] =>
        match firstStreamError evs st with
        | some m => Except.error (SearchError.XmlError m)
        | none => Except.error SearchError.InvalidResponse := by
  induction evs generalizing st with
  | nil => rfl
  | cons item rest ih =>
    cases item with
    | start n => simpa [parse_control_url, matchedControlUrls, firstStreamError] using ih (stepStart st n)
    | endElement =>
      rcases h : stepEnd st with ⟨st2, res⟩
      cases res with
      | some url => simp [parse_control_url, matchedControlUrls, firstStreamError, h]
      | none => simpa [parse_control_url, matchedControlUrls, firstStreamError, h] using ih st2
    | chars t => simpa [parse_control_url, matchedControlUrls, firstStreamError] using ih (stepChars st t)
    | other => simpa [parse_control_url, matchedControlUrls, firstStreamError] using ih st
    | err m => simp [parse_control_url, matchedControlUrls, firstStreamError]

/-- A controlURL reported by `stepEnd` is non-empty. -/
theorem stepEnd_some_ne_empty (st st2 : ExtractorState) (url : String)
    (h : stepEnd st = (st2, some url)) : url ≠ "" := by
  unfold stepEnd at h
  split at h
  · simp at h
  · split at h
    · rename_i hcond
      have hurl : url = st.service.control_url := by
        have := congrArg Prod.snd h
        simpa using this.symm
      subst hurl
      intro hempty
      exact hcond.2.2.2 (by simp [hempty])
    · simp at h

/-- Every collected controlURL is non-empty. -/
theorem matchedControlUrls_ne_empty (evs : List XmlItem) (st : ExtractorState)
    (s : String) (hs : s ∈ matchedControlUrls evs st) : s ≠ "" := by
  induction evs generalizing st with
  | nil => simp [matchedControlUrls] at hs
  | cons item rest ih =>
    cases item with
    | start n => exact ih (stepStart st n) (by simpa [matchedControlUrls] using hs)
    | endElement =>
      rcases h : stepEnd st with ⟨st2, res⟩
      cases res with
      | some url =>
        rw [matchedControlUrls, h] at hs
        simp at hs
        rcases hs with rfl | hs
        · exact stepEnd_some_ne_empty st st2 s h
        · exact ih st2 hs
      | none =>
        rw [matchedControlUrls, h] at hs
        exact ih st2 hs
    | chars t => exact ih (stepChars st t) (by simpa [matchedControlUrls] using hs)
    | other => exact ih st (by simpa [matchedControlUrls] using hs)
    | err m => simp [matchedControlUrls] at hs

/-- If the extractor hits an XML error before any match, no match was
collected at all. -/
theorem firstStreamError_some_no_match (evs : List XmlItem) (st : ExtractorState)
    (m : String) (h : firstStreamError evs st = some m) :
    matchedControlUrls evs st = [] := by
  induction evs generalizing st with
  | nil => simp [firstStreamError] at h
  | cons item rest ih =>
    cases item with
    | start n =>
      rw [firstStreamError] at h
      simpa [matchedControlUrls] using ih (stepStart st n) h
    | endElement =>
      rcases hse : stepEnd st with ⟨st2, res⟩
      cases res with
      | some url => rw [firstStreamError, hse] at h; simp at h
      | none =>
        rw [firstStreamError, hse] at h
        rw [matchedControlUrls, hse]
        exact ih st2 h
    | chars t =>
      rw [firstStreamError] at h
      simpa [matchedControlUrls] using ih (stepChars st t) h
    | other =>
      rw [firstStreamError] at h
      simpa [matchedControlUrls] using ih st h
    | err k => simp [matchedControlUrls]

/-- Claim C1: for every device-description event stream, `parse_control_url`
returns `Ok u` exactly when `u` is the controlURL of the first service, in
document order, that closes with the path-stack suffix
`device/serviceList/service`, an accumulated serviceType equal to the
WANIPConnection:1 or WANPPPConnection:1 URN, and a non-empty accumulated
controlURL; later or non-enclosed candidates are ignored. -/
theorem parse_control_url_first_match (evs : List XmlItem) (u : String) :
    parse_control_url evs initExtractor = Except.ok u ↔
      (matchedControlUrls evs initExtractor).head? = some u := by
  rw [parse_control_url_characterisation]
  cases h : matchedControlUrls evs initExtractor with
  | nil =>
    cases hf : firstStreamError evs initExtractor with
    | none => simp
    | some m => simp
  | cons url rest => simp

/-- Claim C9: a stream with no matching service and no XML error yields
`InvalidResponse`; a successful result is never the empty string; an XML
error reached before any match yields `XmlError`.  (The embedding is a
total function, so no input can crash it.) -/
theorem parse_control_url_no_match (evs : List XmlItem) :
    (matchedControlUrls evs initExtractor = [] →
      firstStreamError evs initExtractor = none →
      parse_control_url evs initExtractor = Except.error SearchError.InvalidResponse)
    ∧ (∀ s, parse_control_url evs initExtractor = Except.ok s → s ≠ "")
    ∧ (∀ m, firstStreamError evs initExtractor = some m →
        parse_control_url evs initExtractor = Except.error (SearchError.XmlError m)) := by
  refine ⟨fun hm hf => ?_, fun s hs => ?_, fun m hm => ?_⟩
  · rw [parse_control_url_characterisation, hm, hf]
  · rw [parse_control_url_characterisation] at hs
    cases h : matchedControlUrls evs initExtractor with
    | nil =>
      rw [h] at hs
      cases hf : firstStreamError evs initExtractor with
      | none => rw [hf] at hs; simp at hs
      | some m => rw [hf] at hs; simp at hs
    | cons url rest =>
      rw [h] at hs
      simp at hs
      subst hs
      exact matchedControlUrls_ne_empty evs initExtractor url (by rw [h]; exact List.mem_cons_self _ _)
  · rw [parse_control_url_characterisation, firstStreamError_some_no_match evs initExtractor m hm, hm]

/-- Witness for C9 at a concrete matchless document
`<root><device><serviceList></serviceList></device></root>`. -/
theorem parse_control_url_no_match_witness :
    parse_control_url
      [XmlItem.start "root", XmlItem.start "device", XmlItem.start "serviceList",
       XmlItem.endElement, XmlItem.endElement, XmlItem.endElement]
      initExtractor = Except.error SearchError.InvalidResponse :=
  (parse_control_url_no_match
      [XmlItem.start "root", XmlItem.start "device", XmlItem.start "serviceList",
       XmlItem.endElement, XmlItem.endElement, XmlItem.endElement]).1
    (by decide) (by decide)

/-! ## Claim theorems: error translation, timeout conversion, datagram -/

/-- Claim C2: each §4.4 fault code relevant to an operation translates to
that operation's exact variant (714 on remove is `NoSuchPortMapping`,
401/606 is `ActionNotAuthorized` on every operation, 715 on add-any is
`NoPortsAvailable`, 716/717/724/725/728 on add map to their variants), and
any code outside an operation's known set falls back to the generic
`ErrorCode` pair wrapped in that operation's `RequestError` variant. -/
theorem error_translation_table :
    (∀ d, translateRemovePort 714 d = RemovePortError.NoSuchPortMapping)
    ∧ (∀ d, translateGetExternalIp 401 d = GetExternalIpError.ActionNotAuthorized
        ∧ translateGetExternalIp 606 d = GetExternalIpError.ActionNotAuthorized
        ∧ translateRemovePort 401 d = RemovePortError.ActionNotAuthorized
        ∧ translateRemovePort 606 d = RemovePortError.ActionNotAuthorized
        ∧ translateAddPort 401 d = AddPortError.ActionNotAuthorized
        ∧ translateAddPort 606 d = AddPortError.ActionNotAuthorized
        ∧ translateAddAnyPort 401 d = AddAnyPortError.ActionNotAuthorized
        ∧ translateAddAnyPort 606 d = AddAnyPortError.ActionNotAuthorized)
    ∧ (∀ d, translateAddPort 716 d = AddPortError.InternalPortZeroInvalid
        ∧ translateAddPort 717 d = AddPortError.PortInUse
        ∧ translateAddPort 724 d = AddPortError.SamePortValuesRequired
        ∧ translateAddPort 725 d = AddPortError.OnlyPermanentLeasesSupported
        ∧ translateAddPort 728 d = AddPortError.DescriptionTooLong)
    ∧ (∀ d, translateAddAnyPort 715 d = AddAnyPortError.NoPortsAvailable
        ∧ translateAddAnyPort 716 d = AddAnyPortError.InternalPortZeroInvalid
        ∧ translateAddAnyPort 725 d = AddAnyPortError.OnlyPermanentLeasesSupported
        ∧ translateAddAnyPort 728 d = AddAnyPortError.DescriptionTooLong)
    ∧ (∀ c d, c ∉ getExternalIpKnownCodes →
        translateGetExternalIp c d
          = GetExternalIpError.RequestError (RequestError.ErrorCode c d))
    ∧ (∀ c d, c ∉ removePortKnownCodes →
        translateRemovePort c d
          = RemovePortError.RequestError (RequestError.ErrorCode c d))
    ∧ (∀ c d, c ∉ addPortKnownCodes →
        translateAddPort c d
          = AddPortError.RequestError (RequestError.ErrorCode c d))
    ∧ (∀ c d, c ∉ addAnyPortKnownCodes →
        translateAddAnyPort c d
          = AddAnyPortError.RequestError (RequestError.ErrorCode c d)) := by
  refine ⟨fun d => rfl, fun d => ⟨rfl, rfl, rfl, rfl, rfl, rfl, rfl, rfl⟩,
    fun d => ⟨rfl, rfl, rfl, rfl, rfl⟩, fun d => ⟨rfl, rfl, rfl, rfl⟩,
    fun c d hc => ?_, fun c d hc => ?_, fun c d hc => ?_, fun c d hc => ?_⟩
  · simp [getExternalIpKnownCodes] at hc
    simp [translateGetExternalIp, hc.1, hc.2]
  · simp [removePortKnownCodes] at hc
    simp [translateRemovePort, hc.1, hc.2.1, hc.2.2]
  · simp [addPortKnownCodes] at hc
    obtain ⟨h1, h2, h3, h4, h5, h6, h7⟩ := hc
    simp [translateAddPort, h1, h2, h3, h4, h5, h6, h7]
  · simp [addAnyPortKnownCodes] at hc
    obtain ⟨h1, h2, h3, h4, h5, h6⟩ := hc
    simp [translateAddAnyPort, h1, h2, h3, h4, h5, h6]

/-- Witness for C2 at concrete codes: 714 on remove, and the
unrecognised code 999 falling back to the generic pair. -/
theorem error_translation_table_witness :
    translateRemovePort 714 "gone" = RemovePortError.NoSuchPortMapping
    ∧ translateAddPort 999 "odd"
        = AddPortError.RequestError (RequestError.ErrorCode 999 "odd") :=
  ⟨error_translation_table.1 "gone",
   error_translation_table.2.2.2.2.2.2.1 999 "odd" (by decide)⟩

/-- Claim C3 counterexample: the `From` conversion in src/errors.rs discards
its argument, so a discovery run that fails by parsing
(`SearchError.InvalidResponse` from the inner chain, deadline not elapsed)
surfaces as exactly the timeout error — the claim says it must never be
the timeout error.  Both outcomes are the literal `TimedOut` io error. -/
theorem discovery_parse_error_becomes_timeout :
    discoveryOutcome (Except.error SearchError.InvalidResponse) false
      = Except.error (SearchError.IoError IoErrorKind.TimedOut "search timed out")
    ∧ discoveryOutcome (Except.error SearchError.InvalidResponse) false
      = discoveryOutcome (Except.error SearchError.InvalidResponse) true := by
  exact ⟨rfl, rfl⟩

/-- Claim C3 (amended): timeout expiry yields the `TimedOut` io error, but
the conversion collapses every failure — including a protocol-parse
failure — to that same timeout error, so the two are not distinct; only
successes pass through unchanged. -/
theorem discovery_error_collapse (inner : Except SearchError Gateway) (elapsed : Bool) :
    (elapsed = true →
      discoveryOutcome inner elapsed
        = Except.error (SearchError.IoError IoErrorKind.TimedOut "search timed out"))
    ∧ (∀ e, inner = Except.error e →
      discoveryOutcome inner elapsed
        = Except.error (SearchError.IoError IoErrorKind.TimedOut "search timed out"))
    ∧ (∀ g, discoveryOutcome inner elapsed = Except.ok g → inner = Except.ok g) := by
  refine ⟨fun he => ?_, fun e he => ?_, fun g hg => ?_⟩
  · simp [discoveryOutcome, he, searchErrorFromTimeout]
  · cases elapsed with
    | true => simp [discoveryOutcome, searchErrorFromTimeout]
    | false => simp [discoveryOutcome, he, searchErrorFromTimeout]
  · cases elapsed with
    | true => simp [discoveryOutcome, searchErrorFromTimeout] at hg
    | false =>
      cases inner with
      | ok g2 => simpa [discoveryOutcome] using hg
      | error e => simp [discoveryOutcome, searchErrorFromTimeout] at hg

/-- Witness for the amended C3 at a concrete run: deadline elapsed yields
the timeout error. -/
theorem discovery_error_collapse_witness :
    discoveryOutcome (Except.error SearchError.InvalidResponse) true
      = Except.error (SearchError.IoError IoErrorKind.TimedOut "search timed out") :=
  (discovery_error_collapse (Except.error SearchError.InvalidResponse) true).1 rfl

/-- Claim C8: the multicast discovery datagram is bit-exact the specified
M-SEARCH string, and it is sent to UDP 239.255.255.250:1900. -/
theorem discovery_datagram_exact :
    discoveryDatagram
      = ("M-SEARCH * HTTP/1.1\r\nHost:239.255.255.250:1900\r\nST:urn:schemas-upnp-org:device:InternetGatewayDevice:1\r\nMan:\"ssdp:discover\"\r\nMX:3\r\n\r\n",
         ⟨(239, 255, 255, 250), 1900⟩) := by
  decide

/-! ## Discovery reply parser (src/search.rs, `parse_result`)

The source compiles the regex
`(?i:Location):\s*http://(\d+\.\d+\.\d+\.\d+):(\d+)(/[^\r]*)` and, for
each line of the reply (Rust `str::lines`), takes the captures of the
leftmost match; the octet string and port string are then parsed with
`unwrap`, which panics when the parse fails.  The regex has no ambiguity:
every repeated class (`\s*`, `\d+`, `[^\r]*`) is followed by a literal
outside the class, so greedy maximal-munch matching is exact.  Character
classes are modelled at their ASCII core, which covers every byte the
protocol can produce. -/

/-- `\s` at its ASCII core. -/
def isWs (c : Char) : Bool :=
  c = ' ' || c = '\t' || c = '\n' || c = '\x0b' || c = '\x0c' || c = '\r'

/-- The case-insensitive key `(?i:Location)`, lowercased. -/
def locationKey : List Char := ['l', 'o', 'c', 'a', 't', 'i', 'o', 'n']

/-- The literal `http://`. -/
def httpLit : List Char := ['h', 't', 't', 'p', ':', '/', '/']

/-- Strip a case-insensitive pattern (given lowercased) from the front. -/
def stripCaseFold : List Char → List Char → Option (List Char)
  | [], cs => some cs
  | _ :: _, [] => none
  | p :: ps, c :: cs => if c.toLower = p then stripCaseFold ps cs else none

/-- Strip an exact literal from the front. -/
def stripLit : List Char → List Char → Option (List Char)
  | [], cs => some cs
  | _ :: _, [] => none
  | p :: ps, c :: cs => if c = p then stripLit ps cs else none

/-- The capture groups of the Location regex, with the dotted quad split
into its four octet digit-runs.  `path` is capture group 3 including its
leading slash. -/
structure LocCaptures where
  o1 : List Char
  o2 : List Char
  o3 : List Char
  o4 : List Char
  portDigits : List Char
  path : List Char
deriving DecidableEq

/-- Match `(\d+\.\d+\.\d+\.\d+):(\d+)(/[^\r]*)` at the front of the
input. -/
def matchQuad (cs : List Char) : Option LocCaptures :=
  let o1 := cs.takeWhile Char.isDigit
  match cs.dropWhile Char.isDigit with
  | '.' :: r1 =>
    let o2 := r1.takeWhile Char.isDigit
    match r1.dropWhile Char.isDigit with
    | '.' :: r2 =>
      let o3 := r2.takeWhile Char.isDigit
      match r2.dropWhile Char.isDigit with
      | '.' :: r3 =>
        let o4 := r3.takeWhile Char.isDigit
        match r3.dropWhile Char.isDigit with
        | ':' :: r4 =>
          let p := r4.takeWhile Char.isDigit
          match r4.dropWhile Char.isDigit with
          | '/' :: r5 =>
            if o1 ≠ [] ∧ o2 ≠ [] ∧ o3 ≠ [] ∧ o4 ≠ [] ∧ p ≠ [] then
              some ⟨o1, o2, o3, o4, p, '/' :: r5.takeWhile (fun c => c ≠ '\r')⟩
            else none
          | _ => none
        | _ => none
      | _ => none
    | _ => none
  | _ => none

/-- Try the whole regex at the current position. -/
def matchLocationAt (cs : List Char) : Option LocCaptures :=
  match stripCaseFold locationKey cs with
  | none => none
  | some r =>
    match r with
    | ':' :: r1 =>
      match stripLit httpLit (r1.dropWhile isWs) with
      | none => none
      | some r2 => matchQuad r2
    | _ => none

/-- Leftmost match of the regex in a line: try each start position from
the left. -/
def findLocation : List Char → Option LocCaptures
  | [] => none
  | c :: cs =>
    match matchLocationAt (c :: cs) with
    | some cap => some cap
    | none => findLocation cs

/-- The numeric value of a digit run. -/
def digitsVal (cs : List Char) : Nat :=
  cs.foldl (fun a c => 10 * a + (c.toNat - 48)) 0

/-- `str::parse::<u8>`-style octet parse as done by
`Ipv4Addr::from_str` on an all-digit component: non-empty, no redundant
leading zero, value at most 255. -/
def parseOctet (cs : List Char) : Option Nat :=
  if cs = [] then none
  else if 1 < cs.length ∧ cs.head? = some '0' then none
  else if digitsVal cs ≤ 255 then some (digitsVal cs) else none

/-- `Ipv4Addr::from_str` on the captured dotted quad. -/
def parseIpv4 (o1 o2 o3 o4 : List Char) : Option (Nat × Nat × Nat × Nat) :=
  match parseOctet o1, parseOctet o2, parseOctet o3, parseOctet o4 with
  | some a, some b, some c, some d => some (a, b, c, d)
  | _, _, _, _ => none

/-- `str::parse::<u16>` on an all-digit capture: non-empty and at most
65535 (leading zeros are accepted by integer parsing). -/
def parseU16 (cs : List Char) : Option Nat :=
  if cs = [] then none
  else if digitsVal cs ≤ 65535 then some (digitsVal cs) else none

/-- `str::lines`: split at `\n`, dropping one `\r` before each `\n`; the
final line ending is optional, and a bare trailing `\r` is kept. -/
def splitOnNl : List Char → List (List Char)
  | [] => [[]]
  | c :: rest =>
    if c = '\n' then [] :: splitOnNl rest
    else
      match splitOnNl rest with
      | l :: ls => (c :: l) :: ls
      | [] => [[c]]

/-- Remove one trailing carriage return, if present. -/
def stripTrailingCr (cs : List Char) : List Char :=
  match cs.reverse with
  | '\r' :: t => t.reverse
  | _ => cs

/-- Finish `str::lines`: strip `\r` from every part that was terminated by
a `\n` (all but the last), and drop the last part when it is empty. -/
def linesFinish : List (List Char) → List (List Char)
  | [] => []
  | [last] => if last = [] then [] else [last]
  | l :: rest => stripTrailingCr l :: linesFinish rest

/-- Rust `str::lines` over the reply text. -/
def rustLines (cs : List Char) : List (List Char) := linesFinish (splitOnNl cs)

/-- Outcome of `parse_result`: a parsed location, `None`, or a panic from
one of the two `unwrap` calls. -/
inductive ParseOutcome
  | found (addr : Nat × Nat × Nat × Nat) (port : Nat) (path : String)
  | noneFound
  | panicked
deriving DecidableEq

/-- Handle one matched line of `parse_result`: the source unwraps
`addr.parse::<Ipv4Addr>()` and `port.parse::<u16>()`, so a failing parse
is a panic, not a `None`. -/
def resultOfCaptures (cap : LocCaptures) : ParseOutcome :=
  match parseIpv4 cap.o1 cap.o2 cap.o3 cap.o4, parseU16 cap.portDigits with
  | some ip, some pt => ParseOutcome.found ip pt (String.mk cap.path)
  | _, _ => ParseOutcome.panicked

/-- The line loop of `parse_result`: first line with a regex match wins. -/
def parseResultLines : List (List Char) → ParseOutcome
  | [] => ParseOutcome.noneFound
  | l :: rest =>
    match findLocation l with
    | none => parseResultLines rest
    | some cap => resultOfCaptures cap

/-- `parse_result` from src/search.rs over the character list of the
reply. -/
def parseResultChars (cs : List Char) : ParseOutcome :=
  parseResultLines (rustLines cs)

/-- `parse_result` from src/search.rs. -/
def parse_result (s : String) : ParseOutcome := parseResultChars s.toList

/-- A well-formed Location header line assembled from a key spelling and
the address, port and path components. -/
def mkLocationLine (k o1 o2 o3 o4 p path : List Char) : List Char :=
  k ++ ':' :: (httpLit ++ (o1 ++ '.' :: (o2 ++ '.' :: (o3 ++ '.' :: (o4 ++ ':' :: (p ++ '/' :: path))))))

/-! Supporting lemmas for the symbolic run of the matcher. -/

theorem stripCaseFold_append : ∀ (k rest : List Char),
    stripCaseFold (k.map Char.toLower) (k ++ rest) = some rest
  | [], _ => rfl
  | c :: k, rest => by simp [stripCaseFold, stripCaseFold_append k rest]

theorem stripLit_append : ∀ (lit rest : List Char), stripLit lit (lit ++ rest) = some rest
  | [], _ => rfl
  | c :: lit, rest => by simp [stripLit, stripLit_append lit rest]

theorem digit_run_split (ds : List Char) (c : Char) (rest : List Char)
    (hds : ∀ x ∈ ds, x.isDigit = true) (hc : c.isDigit = false) :
    (ds ++ c :: rest).takeWhile Char.isDigit = ds
    ∧ (ds ++ c :: rest).dropWhile Char.isDigit = c :: rest := by
  induction ds with
  | nil => simp [List.takeWhile_cons, List.dropWhile_cons, hc]
  | cons d ds ih =>
    have hd : d.isDigit = true := hds d (by simp)
    have hrest := ih (fun x hx => hds x (by simp [hx]))
    simp [List.takeWhile_cons, List.dropWhile_cons, hd, hrest.1, hrest.2]

theorem takeWhile_no_cr (path : List Char) (h : ∀ c ∈ path, c ≠ '\r') :
    path.takeWhile (fun c => c ≠ '\r') = path := by
  simpa using h

theorem splitOnNl_no_nl (cs : List Char) (h : ∀ c ∈ cs, c ≠ '\n') :
    splitOnNl cs = [cs] := by
  induction cs with
  | nil => rfl
  | cons c rest ih =>
    have hc : c ≠ '\n' := h c (by simp)
    have hrest := ih (fun x hx => h x (by simp [hx]))
    simp [splitOnNl, hc, hrest]

theorem rustLines_no_nl (cs : List Char) (h : ∀ c ∈ cs, c ≠ '\n') (h0 : cs ≠ []) :
    rustLines cs = [cs] := by
  unfold rustLines
  rw [splitOnNl_no_nl cs h]
  simp [linesFinish, h0]

theorem matchQuad_wellformed (o1 o2 o3 o4 p path : List Char)
    (h1 : ∀ c ∈ o1, c.isDigit = true) (h1n : o1 ≠ [])
    (h2 : ∀ c ∈ o2, c.isDigit = true) (h2n : o2 ≠ [])
    (h3 : ∀ c ∈ o3, c.isDigit = true) (h3n : o3 ≠ [])
    (h4 : ∀ c ∈ o4, c.isDigit = true) (h4n : o4 ≠ [])
    (hp : ∀ c ∈ p, c.isDigit = true) (hpn : p ≠ [])
    (hpath : ∀ c ∈ path, c ≠ '\r') :
    matchQuad (o1 ++ '.' :: (o2 ++ '.' :: (o3 ++ '.' :: (o4 ++ ':' :: (p ++ '/' :: path)))))
      = some ⟨o1, o2, o3, o4, p, '/' :: path⟩ := by
  have t1 := digit_run_split o1 '.'
    (o2 ++ '.' :: (o3 ++ '.' :: (o4 ++ ':' :: (p ++ '/' :: path)))) h1 (by decide)
  have t2 := digit_run_split o2 '.'
    (o3 ++ '.' :: (o4 ++ ':' :: (p ++ '/' :: path))) h2 (by decide)
  have t3 := digit_run_split o3 '.'
    (o4 ++ ':' :: (p ++ '/' :: path)) h3 (by decide)
  have t4 := digit_run_split o4 ':' (p ++ '/' :: path) h4 (by decide)
  have t5 := digit_run_split p '/' path hp (by decide)
  simp [matchQuad, t1.1, t1.2, t2.1, t2.2, t3.1, t3.2, t4.1, t4.2, t5.1, t5.2,
    h1n, h2n, h3n, h4n, hpn, takeWhile_no_cr path hpath]
  exact fun x hx => hpath x hx

theorem matchLocationAt_wellformed (k o1 o2 o3 o4 p path : List Char)
    (hk : k.map Char.toLower = locationKey)
    (h1 : ∀ c ∈ o1, c.isDigit = true) (h1n : o1 ≠ [])
    (h2 : ∀ c ∈ o2, c.isDigit = true) (h2n : o2 ≠ [])
    (h3 : ∀ c ∈ o3, c.isDigit = true) (h3n : o3 ≠ [])
    (h4 : ∀ c ∈ o4, c.isDigit = true) (h4n : o4 ≠ [])
    (hp : ∀ c ∈ p, c.isDigit = true) (hpn : p ≠ [])
    (hpath : ∀ c ∈ path, c ≠ '\r') :
    matchLocationAt (mkLocationLine k o1 o2 o3 o4 p path)
      = some ⟨o1, o2, o3, o4, p, '/' :: path⟩ := by
  have hstrip := stripCaseFold_append k
    (':' :: (httpLit ++ (o1 ++ '.' :: (o2 ++ '.' :: (o3 ++ '.' :: (o4 ++ ':' :: (p ++ '/' :: path)))))))
  rw [hk] at hstrip
  have hdrop : (httpLit ++ (o1 ++ '.' :: (o2 ++ '.' :: (o3 ++ '.' :: (o4 ++ ':' :: (p ++ '/' :: path)))))).dropWhile isWs
      = httpLit ++ (o1 ++ '.' :: (o2 ++ '.' :: (o3 ++ '.' :: (o4 ++ ':' :: (p ++ '/' :: path))))) := by
    rw [show httpLit ++ (o1 ++ '.' :: (o2 ++ '.' :: (o3 ++ '.' :: (o4 ++ ':' :: (p ++ '/' :: path)))))
        = 'h' :: (['t', 't', 'p', ':', '/', '/'] ++ (o1 ++ '.' :: (o2 ++ '.' :: (o3 ++ '.' :: (o4 ++ ':' :: (p ++ '/' :: path)))))) from rfl]
    rw [List.dropWhile_cons]
    rw [show isWs 'h' = false from rfl]
    simp
  have hhttp := stripLit_append httpLit
    (o1 ++ '.' :: (o2 ++ '.' :: (o3 ++ '.' :: (o4 ++ ':' :: (p ++ '/' :: path)))))
  unfold matchLocationAt mkLocationLine
  simp only [hstrip, hdrop, hhttp]
  exact matchQuad_wellformed o1 o2 o3 o4 p path h1 h1n h2 h2n h3 h3n h4 h4n hp hpn hpath

/-- A well-formed header line contains no newline, so `str::lines` keeps it
whole. -/
theorem mkLocationLine_no_nl (k o1 o2 o3 o4 p path : List Char)
    (hk : k.map Char.toLower = locationKey)
    (h1 : ∀ c ∈ o1, c.isDigit = true) (h2 : ∀ c ∈ o2, c.isDigit = true)
    (h3 : ∀ c ∈ o3, c.isDigit = true) (h4 : ∀ c ∈ o4, c.isDigit = true)
    (hp : ∀ c ∈ p, c.isDigit = true)
    (hpath : ∀ c ∈ path, c ≠ '\n') :
    ∀ c ∈ mkLocationLine k o1 o2 o3 o4 p path, c ≠ '\n' := by
  have hdig : ∀ (c : Char), c.isDigit = true → c ≠ '\n' := by
    intro c hc heq
    subst heq
    exact absurd hc (by decide)
  have hkchar : ∀ c ∈ k, c ≠ '\n' := by
    intro c hc heq
    subst heq
    have hmem : Char.toLower '\n' ∈ List.map Char.toLower k := List.mem_map_of_mem _ hc
    rw [hk] at hmem
    exact absurd hmem (by decide)
  unfold mkLocationLine
  simp only [List.forall_mem_append, List.forall_mem_cons]
  exact ⟨hkchar, by decide, by decide, fun c hc => hdig c (h1 c hc), by decide,
    fun c hc => hdig c (h2 c hc), by decide, fun c hc => hdig c (h3 c hc), by decide,
    fun c hc => hdig c (h4 c hc), by decide, fun c hc => hdig c (hp c hc), by decide, hpath⟩

/-- Claim C4: for every well-formed Location header line — any letter case
of the 8-character key, dotted-quad address, decimal port, slash-led path —
`parse_result` extracts the address/port/path determined by the components
alone, independent of the key's case; in particular both spellings of the
concrete example parse to `(0.0.0.0:0, "/control_url")`. -/
theorem parse_result_case_insensitive (k o1 o2 o3 o4 p path : List Char)
    (ip : Nat × Nat × Nat × Nat) (pt : Nat)
    (hk : k.map Char.toLower = locationKey)
    (h1 : ∀ c ∈ o1, c.isDigit = true) (h1n : o1 ≠ [])
    (h2 : ∀ c ∈ o2, c.isDigit = true) (h2n : o2 ≠ [])
    (h3 : ∀ c ∈ o3, c.isDigit = true) (h3n : o3 ≠ [])
    (h4 : ∀ c ∈ o4, c.isDigit = true) (h4n : o4 ≠ [])
    (hp : ∀ c ∈ p, c.isDigit = true) (hpn : p ≠ [])
    (hpath : ∀ c ∈ path, c ≠ '\r' ∧ c ≠ '\n')
    (hip : parseIpv4 o1 o2 o3 o4 = some ip) (hpt : parseU16 p = some pt) :
    parseResultChars (mkLocationLine k o1 o2 o3 o4 p path)
      = ParseOutcome.found ip pt (String.mk ('/' :: path))
    ∧ parse_result "location:http://0.0.0.0:0/control_url"
      = ParseOutcome.found (0, 0, 0, 0) 0 "/control_url"
    ∧ parse_result "LOCATION:http://0.0.0.0:0/control_url"
      = ParseOutcome.found (0, 0, 0, 0) 0 "/control_url" := by
  refine ⟨?_, by decide, by decide⟩
  have hmatch := matchLocationAt_wellformed k o1 o2 o3 o4 p path hk
    h1 h1n h2 h2n h3 h3n h4 h4n hp hpn (fun c hc => (hpath c hc).1)
  have hnl := mkLocationLine_no_nl k o1 o2 o3 o4 p path hk h1 h2 h3 h4 hp
    (fun c hc => (hpath c hc).2)
  have hne : mkLocationLine k o1 o2 o3 o4 p path ≠ [] := by
    unfold mkLocationLine
    cases k with
    | nil => exact absurd hk (by decide)
    | cons c kt => simp
  unfold parseResultChars
  rw [rustLines_no_nl _ hnl hne]
  have hcons : ∃ c cs, mkLocationLine k o1 o2 o3 o4 p path = c :: cs := by
    cases hl : mkLocationLine k o1 o2 o3 o4 p path with
    | nil => exact absurd hl hne
    | cons c cs => exact ⟨c, cs, rfl⟩
  obtain ⟨c, cs, hl⟩ := hcons
  rw [parseResultLines, hl, findLocation, ← hl, hmatch]
  simp [resultOfCaptures, hip, hpt]

/-- Witness for C4: a mixed-case key `LoCation` with address 10.1.2.3,
port 80 and path `/x`. -/
theorem parse_result_case_insensitive_witness :
    parseResultChars
      (mkLocationLine ['L', 'o', 'C', 'a', 't', 'i', 'o', 'n']
        ['1', '0'] ['1'] ['2'] ['3'] ['8', '0'] ['x'])
      = ParseOutcome.found (10, 1, 2, 3) 80 (String.mk ['/', 'x']) :=
  (parse_result_case_insensitive ['L', 'o', 'C', 'a', 't', 'i', 'o', 'n']
    ['1', '0'] ['1'] ['2'] ['3'] ['8', '0'] ['x'] (10, 1, 2, 3) 80
    (by decide) (by decide) (by decide) (by decide) (by decide) (by decide)
    (by decide) (by decide) (by decide) (by decide) (by decide) (by decide)
    (by decide) (by decide)).1

/-- Claim C10: `parse_result` is not total — the line
`Location: http://1.2.3.4:99999/path` matches the regex (the port digits
satisfy `\d+`) but `99999` overflows `u16`, so the source's `unwrap`
panics; hence it is false that every input yields `Some` or `None` without
panicking. -/
theorem parse_result_panics :
    parse_result "Location: http://1.2.3.4:99999/path" = ParseOutcome.panicked
    ∧ ¬(∀ s, parse_result s ≠ ParseOutcome.panicked) := by
  constructor
  · decide
  · intro h
    exact h "Location: http://1.2.3.4:99999/path" (by decide)

/-! ## SOAP transport (src/soap.rs, `send_async`)

The HTTP client is an oracle: `parseUri` says whether hyper accepts the
URL, `net` maps the built request to either a connection-level error or a
response (status code plus raw body bytes).  hyper resolves the response
future for any status code, so the status reaches this code only as data;
`String::from_utf8` on the collected bytes is real UTF-8 validation. -/

/-- `soap::Error` from src/soap.rs. -/
inductive SoapError
  | HttpError (msg : String)
  | IoError (msg : String)
  | InvalidUri (msg : String)
  | Utf8Error (msg : String)
deriving DecidableEq

/-- The parts of the hyper request that src/soap.rs sets. -/
structure HttpRequest where
  method : String
  uri : String
  headers : List (String × String)
  body : String
deriving DecidableEq

/-- The transport-level outcome of one HTTP exchange. -/
inductive HyperResult
  | response (status : Nat) (bodyBytes : List Nat)
  | connError (msg : String)

/-- Is a byte a UTF-8 continuation byte? -/
def isCont (b : Nat) : Bool := 0x80 ≤ b && b ≤ 0xBF

/-- Valid range of the first continuation byte of a three-byte sequence
(excludes overlong encodings and surrogates). -/
def cont3Ok (b c1 : Nat) : Bool :=
  if b = 0xE0 then 0xA0 ≤ c1 && c1 ≤ 0xBF
  else if b = 0xED then 0x80 ≤ c1 && c1 ≤ 0x9F
  else isCont c1

/-- Valid range of the first continuation byte of a four-byte sequence
(excludes overlong encodings and values above U+10FFFF). -/
def cont4Ok (b c1 : Nat) : Bool :=
  if b = 0xF0 then 0x90 ≤ c1 && c1 ≤ 0xBF
  else if b = 0xF4 then 0x80 ≤ c1 && c1 ≤ 0x8F
  else isCont c1

/-- Strict UTF-8 decoding as done by `String::from_utf8`. -/
def utf8Decode : List Nat → Option (List Char)
  | [] => some []
  | b :: rest =>
    if b < 0x80 then
      match utf8Decode rest with
      | some cs => some (Char.ofNat b :: cs)
      | none => none
    else if b < 0xC2 then none
    else if b < 0xE0 then
      match rest with
      | c1 :: rest2 =>
        if isCont c1 then
          match utf8Decode rest2 with
          | some cs => some (Char.ofNat ((b - 0xC0) * 0x40 + (c1 - 0x80)) :: cs)
          | none => none
        else none
      | [] => none
    else if b < 0xF0 then
      match rest with
      | c1 :: c2 :: rest2 =>
        if cont3Ok b c1 && isCont c2 then
          match utf8Decode rest2 with
          | some cs =>
            some (Char.ofNat ((b - 0xE0) * 0x1000 + (c1 - 0x80) * 0x40 + (c2 - 0x80)) :: cs)
          | none => none
        else none
      | _ => none
    else if b < 0xF5 then
      match rest with
      | c1 :: c2 :: c3 :: rest2 =>
        if cont4Ok b c1 && isCont c2 && isCont c3 then
          match utf8Decode rest2 with
          | some cs =>
            some (Char.ofNat ((b - 0xF0) * 0x40000 + (c1 - 0x80) * 0x1000
              + (c2 - 0x80) * 0x40 + (c3 - 0x80)) :: cs)
          | none => none
        else none
      | _ => none
    else none

/-- Does a character contribute only valid HTTP header-value bytes?  The
http crate accepts a byte iff it is `\t` or lies in `32..=255` except 127;
a non-ASCII character encodes to UTF-8 bytes that are all `≥ 0x80` and
hence always valid, so per-character checking of the code point is exact. -/
def isValidHeaderByteChar (c : Char) : Bool :=
  c.toNat = 9 || (32 ≤ c.toNat && c.toNat ≠ 127)

/-- Whether `HeaderValue::try_from` accepts the string, i.e. whether the
request builder in src/soap.rs succeeds on the `SOAPAction` value. -/
def validHeaderValue (s : String) : Bool := s.toList.all isValidHeaderByteChar

/-- Outcome of `send_async`: a response body, a `soap::Error`, or the
panic of the request-builder `unwrap` at the end of src/soap.rs line 57. -/
inductive SendOutcome
  | ok (body : String)
  | err (e : SoapError)
  | panicked
deriving DecidableEq

/-- The request built by `send_async` in src/soap.rs: a POST with the
`SOAPAction`, `Content-Type: text/xml` and `Content-Length` headers and
the literal body. -/
def soapRequest (url action body : String) : HttpRequest :=
  { method := "POST"
    uri := url
    headers :=
      [("SOAPAction", action), ("Content-Type", "text/xml"),
       ("Content-Length", toString body.utf8ByteSize)]
    body := body }

/-- `send_async` from src/soap.rs, returning the result together with the
list of HTTP requests issued.  The source first parses the URL (early
`InvalidUri` return), then builds the request and calls `.unwrap()` on the
builder: an invalid `SOAPAction` header value makes the builder hold an
error, so the `unwrap` panics before any request is sent.  The other
header values (`text/xml`, the numeric length) and the parsed URI are
always valid.  After the build, exactly one `client.request` happens. -/
def send_async (parseUri : String → Bool) (net : HttpRequest → HyperResult)
    (url action body : String) : SendOutcome × List HttpRequest :=
  if parseUri url then
    if validHeaderValue action then
      let req := soapRequest url action body
      match net req with
      | HyperResult.connError m => (SendOutcome.err (SoapError.HttpError m), [req])
      | HyperResult.response _status bytes =>
        match utf8Decode bytes with
        | some cs => (SendOutcome.ok (String.mk cs), [req])
        | none => (SendOutcome.err (SoapError.Utf8Error "invalid utf-8"), [req])
    else (SendOutcome.panicked, [])
  else (SendOutcome.err (SoapError.InvalidUri url), [])

/-- Claim C7 counterexample: for the action string `"SOAP\nAction"` — whose
newline is an invalid header-value byte — the source's request builder
`unwrap` (src/soap.rs line 57) panics: no POST is issued and none of the
three listed failures is returned, refuting the claim's "for every url,
action and body". -/
theorem send_async_invalid_header_panics :
    send_async (fun _ => true) (fun _ => HyperResult.response 200 [])
      "http://g/ctl" "SOAP\nAction" "b" = (SendOutcome.panicked, []) := by
  decide

/-- Claim C7 (amended): for every url and body, and every action that is a
valid header value, `send_async` issues exactly one POST carrying
`SOAPAction: action`, `Content-Type: text/xml` and `Content-Length` equal
to the body's byte length with the literal body; any HTTP-level response
is returned as a UTF-8 string whatever its status (500 included), and the
failures are exactly invalid URL, connection error, and a non-UTF-8
response body — while an action with an invalid header-value byte panics
the builder's `unwrap` before any request is sent. -/
theorem send_async_contract (parseUri : String → Bool) (net : HttpRequest → HyperResult)
    (url action body : String) :
    (parseUri url = true → validHeaderValue action = true →
      (send_async parseUri net url action body).2
        = [{ method := "POST", uri := url,
             headers :=
               [("SOAPAction", action), ("Content-Type", "text/xml"),
                ("Content-Length", toString body.utf8ByteSize)],
             body := body }])
    ∧ (∀ status bytes cs, parseUri url = true → validHeaderValue action = true →
        net (soapRequest url action body) = HyperResult.response status bytes →
        utf8Decode bytes = some cs →
        (send_async parseUri net url action body).1 = SendOutcome.ok (String.mk cs))
    ∧ (parseUri url = false →
        send_async parseUri net url action body
          = (SendOutcome.err (SoapError.InvalidUri url), []))
    ∧ (∀ m, parseUri url = true → validHeaderValue action = true →
        net (soapRequest url action body) = HyperResult.connError m →
        (send_async parseUri net url action body).1
          = SendOutcome.err (SoapError.HttpError m))
    ∧ (∀ status bytes, parseUri url = true → validHeaderValue action = true →
        net (soapRequest url action body) = HyperResult.response status bytes →
        utf8Decode bytes = none →
        (send_async parseUri net url action body).1
          = SendOutcome.err (SoapError.Utf8Error "invalid utf-8"))
    ∧ (parseUri url = true → validHeaderValue action = false →
        send_async parseUri net url action body = (SendOutcome.panicked, [])) := by
  refine ⟨fun hu hv => ?_, fun status bytes cs hu hv hnet hdec => ?_,
    fun hu => ?_, fun m hu hv hnet => ?_, fun status bytes hu hv hnet hdec => ?_,
    fun hu hv => ?_⟩
  · cases hnet : net (soapRequest url action body) with
    | connError m =>
      simp only [soapRequest] at hnet
      simp [send_async, hu, hv, hnet, soapRequest]
    | response status bytes =>
      cases hdec : utf8Decode bytes with
      | some cs =>
        simp only [soapRequest] at hnet
        simp [send_async, hu, hv, hnet, hdec, soapRequest]
      | none =>
        simp only [soapRequest] at hnet
        simp [send_async, hu, hv, hnet, hdec, soapRequest]
  · simp [send_async, hu, hv, hnet, hdec]
  · simp [send_async, hu]
  · simp [send_async, hu, hv, hnet]
  · simp [send_async, hu, hv, hnet, hdec]
  · simp [send_async, hu, hv]

/-- Witness for C7: a valid action and a network oracle replying 500 with
body bytes `[104, 105]` (the UTF-8 of "hi") still yield `Ok "hi"`. -/
theorem send_async_contract_witness :
    (send_async (fun _ => true)
      (fun _ => HyperResult.response 500 [104, 105]) "http://g/ctl" "a" "b").1
      = SendOutcome.ok (String.mk ['h', 'i']) :=
  (send_async_contract (fun _ => true) (fun _ => HyperResult.response 500 [104, 105])
    "http://g/ctl" "a" "b").2.1 500 [104, 105] ['h', 'i'] rfl (by decide) rfl (by decide)

/-! ## Gateway control engine (spec §4.5)

The async engine (`tokio/gateway.rs`) is declared by src/src/tokio/mod.rs
but is not part of the provided sources; the operations the claims need
are modelled from the specification.  The SOAP exchange is an oracle from
the built mapping request to the gateway's answer, and each operation also
returns the list of requests it sent, so "no network call" is the empty
list. -/

/-- The parameters of one port-mapping SOAP request built by the engine. -/
structure MappingRequest where
  action : String
  externalPort : Nat
  protocol : PortMappingProtocol
  localAddr : SocketAddrV4
  leaseDuration : Nat
  description : String
deriving DecidableEq

/-- A gateway's answer to an `AddPortMapping`/`DeletePortMapping` call:
empty success body or a SOAP fault. -/
inductive GatewayResponse
  | success
  | fault (code : Nat) (description : String)

/-- A gateway's answer to the any-port allocation: the reserved external
port, or a SOAP fault. -/
inductive AnyPortResponse
  | success (newPort : Nat)
  | fault (code : Nat) (description : String)

/-- Modelled from the spec: `add_port` of the engine (§4.5; the source
`tokio/gateway.rs` is declared but not provided).  It rejects
`local_addr.port() == 0` and then `external_port == 0` before any network
call, otherwise sends exactly one mapping request and translates a fault
per §4.4. -/
def add_port (net : MappingRequest → GatewayResponse) (protocol : PortMappingProtocol)
    (external_port : Nat) (local_addr : SocketAddrV4) (lease_duration : Nat)
    (description : String) : Except AddPortError Unit × List MappingRequest :=
  if local_addr.port = 0 then (Except.error AddPortError.InternalPortZeroInvalid, [])
  else if external_port = 0 then (Except.error AddPortError.ExternalPortZeroInvalid, [])
  else
    let req : MappingRequest :=
      ⟨"AddPortMapping", external_port, protocol, local_addr, lease_duration, description⟩
    match net req with
    | GatewayResponse.success => (Except.ok (), [req])
    | GatewayResponse.fault c d => (Except.error (translateAddPort c d), [req])

/-- The request `add_any_port` builds for its single random candidate. -/
def addAnyPortRequest (protocol : PortMappingProtocol) (local_addr : SocketAddrV4)
    (lease_duration : Nat) (description : String) (candidate : Nat) : MappingRequest :=
  ⟨"AddAnyPortMapping", candidate, protocol, local_addr, lease_duration, description⟩

/-- Modelled from the spec: `add_any_port` of the engine (§4.5; the source
`tokio/gateway.rs` is declared but not provided).  It rejects
`local_addr.port() == 0` locally, draws one candidate external port
uniformly in `[1, 65534]` from the random value `r`, performs exactly one
allocation attempt with it, decodes the reserved port on success and
surfaces a fault per §4.4 without retrying. -/
def add_any_port (net : MappingRequest → AnyPortResponse) (protocol : PortMappingProtocol)
    (local_addr : SocketAddrV4) (lease_duration : Nat) (description : String)
    (r : Nat) : Except AddAnyPortError Nat × List MappingRequest :=
  if local_addr.port = 0 then (Except.error AddAnyPortError.InternalPortZeroInvalid, [])
  else
    let candidate := 1 + r % 65534
    let req := addAnyPortRequest protocol local_addr lease_duration description candidate
    match net req with
    | AnyPortResponse.success newPort => (Except.ok newPort, [req])
    | AnyPortResponse.fault c d => (Except.error (translateAddAnyPort c d), [req])

/-- Claim C5: with `local_addr.port() == 0`, `add_port` and `add_any_port`
return `InternalPortZeroInvalid` with no request sent; with a non-zero
local port but `external_port == 0`, `add_port` returns
`ExternalPortZeroInvalid` with no request sent. -/
theorem port_zero_validation (net : MappingRequest → GatewayResponse)
    (netAny : MappingRequest → AnyPortResponse) (protocol : PortMappingProtocol)
    (external_port : Nat) (local_addr : SocketAddrV4) (lease_duration : Nat)
    (description : String) (r : Nat) :
    (local_addr.port = 0 →
      add_port net protocol external_port local_addr lease_duration description
        = (Except.error AddPortError.InternalPortZeroInvalid, []))
    ∧ (local_addr.port ≠ 0 → external_port = 0 →
      add_port net protocol external_port local_addr lease_duration description
        = (Except.error AddPortError.ExternalPortZeroInvalid, []))
    ∧ (local_addr.port = 0 →
      add_any_port netAny protocol local_addr lease_duration description r
        = (Except.error AddAnyPortError.InternalPortZeroInvalid, [])) := by
  refine ⟨fun h0 => ?_, fun hn h0 => ?_, fun h0 => ?_⟩
  · simp [add_port, h0]
  · simp [add_port, hn, h0]
  · simp [add_any_port, h0]

/-- Witness for C5 at a concrete local address with port 0 and a concrete
oracle. -/
theorem port_zero_validation_witness :
    add_port (fun _ => GatewayResponse.success) PortMappingProtocol.TCP 8080
      ⟨(192, 168, 0, 2), 0⟩ 0 "d"
      = (Except.error AddPortError.InternalPortZeroInvalid, []) :=
  (port_zero_validation (fun _ => GatewayResponse.success)
    (fun _ => AnyPortResponse.success 1) PortMappingProtocol.TCP 8080
    ⟨(192, 168, 0, 2), 0⟩ 0 "d" 0).1 rfl

/-- Claim C6: with a non-zero local port, `add_any_port` requests exactly
one candidate external port, `1 + r % 65534`, which lies in `[1, 65534]`
(never 0), and a fault reply is surfaced as the translated error of that
single attempt — no internal retry. -/
theorem add_any_port_single_draw (net : MappingRequest → AnyPortResponse)
    (protocol : PortMappingProtocol) (local_addr : SocketAddrV4)
    (lease_duration : Nat) (description : String) (r : Nat)
    (hl : local_addr.port ≠ 0) :
    ((add_any_port net protocol local_addr lease_duration description r).2.map
        (fun q => q.externalPort) = [1 + r % 65534])
    ∧ (1 ≤ 1 + r % 65534 ∧ 1 + r % 65534 ≤ 65534)
    ∧ (∀ c d,
        net (addAnyPortRequest protocol local_addr lease_duration description
          (1 + r % 65534)) = AnyPortResponse.fault c d →
        (add_any_port net protocol local_addr lease_duration description r).1
          = Except.error (translateAddAnyPort c d)) := by
  refine ⟨?_, ⟨Nat.le_add_right 1 (r % 65534), ?_⟩, fun c d hnet => ?_⟩
  · cases hnet : net (addAnyPortRequest protocol local_addr lease_duration description
        (1 + r % 65534)) with
    | success newPort =>
      simp only [addAnyPortRequest] at hnet
      simp [add_any_port, hl, hnet, addAnyPortRequest]
    | fault c d =>
      simp only [addAnyPortRequest] at hnet
      simp [add_any_port, hl, hnet, addAnyPortRequest]
  · have hlt : r % 65534 < 65534 := Nat.mod_lt r (by norm_num)
    omega
  · simp [add_any_port, hl, hnet]

/-- Witness for C6: random value 70000 gives candidate 4467, and a
conflict fault 718 surfaces as the generic translated error. -/
theorem add_any_port_single_draw_witness :
    ((add_any_port (fun _ => AnyPortResponse.fault 718 "conflict")
        PortMappingProtocol.UDP ⟨(10, 0, 0, 7), 4000⟩ 0 "d" 70000).2.map
      (fun q => q.externalPort) = [1 + 70000 % 65534])
    ∧ (add_any_port (fun _ => AnyPortResponse.fault 718 "conflict")
        PortMappingProtocol.UDP ⟨(10, 0, 0, 7), 4000⟩ 0 "d" 70000).1
      = Except.error (translateAddAnyPort 718 "conflict") :=
  ⟨(add_any_port_single_draw (fun _ => AnyPortResponse.fault 718 "conflict")
      PortMappingProtocol.UDP ⟨(10, 0, 0, 7), 4000⟩ 0 "d" 70000 (by decide)).1,
   (add_any_port_single_draw (fun _ => AnyPortResponse.fault 718 "conflict")
      PortMappingProtocol.UDP ⟨(10, 0, 0, 7), 4000⟩ 0 "d" 70000 (by decide)).2.2
      718 "conflict" rfl⟩

end Igd
